import Mathlib

/-!
Verification development for the Sleepy schedule optimizer
(`src/services/sleep_optimizer.py`, constants from `config/settings.py`).

Modelling conventions:
* Instants are rational numbers of minutes since midnight of an arbitrary
  epoch day 0; `combineT d t` is Python's `datetime.combine(d, t)`.
* Calendar dates are integer day indices (`target_date : ℤ`); the
  `YYYY-MM-DD` string round-trip is not modelled, the target date is
  supplied directly (the optimizer accepts an explicit `target_date`).
* Python `float` arithmetic is modelled by exact rationals; `round(x, 2)`
  is modelled as ideal decimal rounding half-to-even (`round2`).  For the
  minute-granular values the optimizer produces, `100 * x` never hits a
  half-integer tie, so the tie-breaking rule is never exercised.
* Python exceptions of the helpers (`ValueError` from `int(...)` and from
  the `time(...)` constructor, `IndexError` from `parts[1]`) are modelled
  by `Option`: `none` means the call raises.
* The `notes` free-text strings are modelled by the inductive `Note`,
  one constructor per f-string in the source, carrying the interpolated
  values; underscore digit separators of Python `int` literals are not
  modelled by the digit parser.
-/

/-- Wall-clock time as produced by Python's `time(hour=..., minute=...)`
constructor (seconds are never set by the optimizer's parser). -/
structure Time where
  hour : ℤ
  minute : ℤ
deriving DecidableEq, Repr

/-- Characters Python's `str.strip` / `int` remove at both ends
(the common ASCII whitespace). -/
def isPySpace (c : Char) : Bool :=
  c = ' ' || c = '\t' || c = '\n' || c = '\r'

/-- `str.strip()`: drop whitespace from both ends of a character list. -/
def stripChars (cs : List Char) : List Char :=
  ((cs.dropWhile isPySpace).reverse.dropWhile isPySpace).reverse

/-- Auxiliary for `splitColon`: accumulates the current field reversed. -/
def splitColonAux : List Char → List Char → List (List Char)
  | [], acc => [acc.reverse]
  | c :: rest, acc =>
    if c = ':' then acc.reverse :: splitColonAux rest []
    else splitColonAux rest (c :: acc)

/-- Python's `s.split(':')` on a character list. -/
def splitColon (cs : List Char) : List (List Char) :=
  splitColonAux cs []

/-- Value of one decimal digit character, `none` if not a digit. -/
def digitVal (c : Char) : Option ℕ :=
  if c.isDigit then some (c.toNat - 48) else none

/-- A non-empty all-digit character list read as a natural number
(base 10, leading zeros allowed), `none` otherwise. -/
def pyDigits (cs : List Char) : Option ℕ :=
  match cs with
  | [] => none
  | _ => cs.foldlM (fun acc c => (digitVal c).map (fun d => acc * 10 + d)) 0

/-- Python's `int(s)` on a decimal text: strip whitespace, optional
single sign, then digits; `none` models the `ValueError`. -/
def pyIntChars (cs : List Char) : Option ℤ :=
  match stripChars cs with
  | '+' :: rest => (pyDigits rest).map (fun n => (n : ℤ))
  | '-' :: rest => (pyDigits rest).map (fun n => -(n : ℤ))
  | rest => (pyDigits rest).map (fun n => (n : ℤ))

/-- Python's `time(hour=h, minute=m)` constructor: `ValueError` (`none`)
unless `0 ≤ h ≤ 23` and `0 ≤ m ≤ 59`. -/
def mkTime (h m : ℤ) : Option Time :=
  if 0 ≤ h ∧ h ≤ 23 ∧ 0 ≤ m ∧ m ≤ 59 then some ⟨h, m⟩ else none

/-- `SleepOptimizer._parse_time`: strip, split on `:`, read the first two
components with `int`, build a `time`; any exception is `none`. -/
def parseTime (s : String) : Option Time :=
  match splitColon (stripChars s.data) with
  | p0 :: p1 :: _ =>
    (pyIntChars p0).bind fun h => (pyIntChars p1).bind fun m => mkTime h m
  | _ => none

/-- Ideal round-half-to-even of a rational to an integer
(Python's `round` on a number with no representation error). -/
def pyRound (x : ℚ) : ℤ :=
  if x - ⌊x⌋ < 1/2 then ⌊x⌋
  else if x - ⌊x⌋ > 1/2 then ⌊x⌋ + 1
  else if ⌊x⌋ % 2 = 0 then ⌊x⌋ else ⌊x⌋ + 1

/-- Python's `round(x, 2)`. -/
def round2 (x : ℚ) : ℚ :=
  (pyRound (x * 100) : ℚ) / 100

/-- The f-string `notes` texts of `calculate_optimal_schedule`, one
constructor per source branch, carrying the interpolated values. -/
inductive Note where
  | pivotWake (hour : ℤ)
  | wakeAtFajr
  | belowMinWarning
  | adjustedMin (minDur : ℚ)
  | cappedMax (maxDur : ℚ)
deriving DecidableEq, Repr

/-- The policy fields a `SleepOptimizer` instance copies from
`config/settings.py` in `__init__`. -/
structure SleepOptimizer where
  default_duration : ℚ
  min_duration : ℚ
  max_duration : ℚ
  optimal_wake_hour : ℤ
  isha_buffer : ℤ
  fajr_buffer : ℤ
deriving DecidableEq, Repr

/-- The reference policy: `DEFAULT_SLEEP_DURATION_HOURS = 7.0`,
`MIN_SLEEP_DURATION_HOURS = 6.0`, `MAX_SLEEP_DURATION_HOURS = 7.5`,
`OPTIMAL_WAKE_TIME_HOUR = 4`, `ISHA_BUFFER_MINUTES = 30`,
`FAJR_BUFFER_MINUTES = 0`. -/
def defaultOptimizer : SleepOptimizer :=
  { default_duration := 7
    min_duration := 6
    max_duration := 15/2
    optimal_wake_hour := 4
    isha_buffer := 30
    fajr_buffer := 0 }

/-- `datetime.combine(day, t)` in minutes since midnight of day 0. -/
def combineT (d : ℤ) (t : Time) : ℚ :=
  1440 * d + 60 * t.hour + t.minute

/-- `sleep_start_dt = datetime.combine(target_date, isha_time)
+ timedelta(minutes=isha_buffer)`. -/
def sleepStartDT (o : SleepOptimizer) (d : ℤ) (isha : Time) : ℚ :=
  combineT d isha + o.isha_buffer

/-- `fajr_dt = datetime.combine(next_day, fajr_time)`. -/
def fajrDT (d : ℤ) (fajr : Time) : ℚ :=
  combineT (d + 1) fajr

/-- `optimal_wake_dt = datetime.combine(next_day,
time(hour=optimal_wake_hour, minute=0))`. -/
def optimalWakeDT (o : SleepOptimizer) (d : ℤ) : ℚ :=
  combineT (d + 1) ⟨o.optimal_wake_hour, 0⟩

/-- `available_hours = (fajr_dt - sleep_start_dt).total_seconds() / 3600`. -/
def availableHours (o : SleepOptimizer) (d : ℤ) (isha fajr : Time) : ℚ :=
  ((fajrDT d fajr - sleepStartDT o d isha) * 60) / 3600

/-- The wake-time branch of `calculate_optimal_schedule` (source lines
67-86): the chosen `wake_dt` together with the branch's `notes`.
The outer threshold is the literal `7.5` of the source, not a policy
field. -/
def branchWake (o : SleepOptimizer) (d : ℤ) (isha fajr : Time) : ℚ × Note :=
  if availableHours o d isha fajr ≥ 15/2 then
    if fajr.hour > o.optimal_wake_hour then
      (optimalWakeDT o d, Note.pivotWake o.optimal_wake_hour)
    else
      (fajrDT d fajr - o.fajr_buffer, Note.wakeAtFajr)
  else if availableHours o d isha fajr ≥ o.min_duration then
    (fajrDT d fajr - o.fajr_buffer, Note.wakeAtFajr)
  else
    (fajrDT d fajr - o.fajr_buffer, Note.belowMinWarning)

/-- The internal state of one optimizer call after the bounds
adjustment: the final `sleep_start_dt`, `wake_dt`, `duration_hours`
and `notes` local variables. -/
structure CalcResult where
  sleep_start_dt : ℚ
  wake_dt : ℚ
  duration_hours : ℚ
  notes : Note
deriving DecidableEq, Repr

/-- The rounded raw duration of lines 90-91:
`round((wake_dt - sleep_start_dt).total_seconds() / 3600, 2)`. -/
def rawDuration (start wake : ℚ) : ℚ :=
  round2 (((wake - start) * 60) / 3600)

/-- The unconditional bounds-adjustment pass of lines 93-104. -/
def adjustBounds (o : SleepOptimizer) (start wake : ℚ) (note : Note) :
    CalcResult :=
  if rawDuration start wake < o.min_duration then
    ⟨wake - 60 * o.min_duration, wake, o.min_duration,
      Note.adjustedMin o.min_duration⟩
  else if rawDuration start wake > o.max_duration then
    ⟨start, start + 60 * o.max_duration, o.max_duration,
      Note.cappedMax o.max_duration⟩
  else
    ⟨start, wake, rawDuration start wake, note⟩

/-- The whole computation of `calculate_optimal_schedule` on already
parsed times: branch, then bounds adjustment. -/
def calcCore (o : SleepOptimizer) (d : ℤ) (isha fajr : Time) : CalcResult :=
  adjustBounds o (sleepStartDT o d isha) (branchWake o d isha fajr).1
    (branchWake o d isha fajr).2

/-- `.time()` of an instant: minutes past midnight of its own day. -/
def timeOfDay (x : ℚ) : ℚ :=
  x - 1440 * ⌊x / 1440⌋

/-- The `isha`/`fajr` fields of the input `PrayerTimes` record (the other
prayer fields are unused by the optimizer). -/
structure PrayerTimes where
  isha : String
  fajr : String
deriving DecidableEq, Repr

/-- The output `SleepSchedule` record; `sleep_start`/`sleep_end` are the
wall-clock times of day (the source renders them with
`strftime('%H:%M')`). -/
structure SleepSchedule where
  date : ℤ
  sleep_start : ℚ
  sleep_end : ℚ
  duration_hours : ℚ
  isha_time : String
  fajr_time : String
  notes : Note
deriving DecidableEq, Repr

/-- Packaging of the final local variables into the returned
`SleepSchedule` record (source lines 106-114). -/
def mkSchedule (p : PrayerTimes) (target_date : ℤ) (r : CalcResult) :
    SleepSchedule :=
  { date := target_date
    sleep_start := timeOfDay r.sleep_start_dt
    sleep_end := timeOfDay r.wake_dt
    duration_hours := r.duration_hours
    isha_time := p.isha
    fajr_time := p.fajr
    notes := r.notes }

/-- `SleepOptimizer.calculate_optimal_schedule` with the target date
supplied; `none` models a propagated parse exception. -/
def calculateOptimalSchedule (o : SleepOptimizer) (p : PrayerTimes)
    (target_date : ℤ) : Option SleepSchedule :=
  (parseTime p.isha).bind fun isha_time =>
  (parseTime p.fajr).bind fun fajr_time =>
  some (mkSchedule p target_date (calcCore o target_date isha_time fajr_time))

/-- The result strings of `get_time_until_sleep`. -/
def formatHM (hours minutes : ℤ) : String :=
  if hours > 0 then
    toString hours ++ " hour" ++ (if hours ≠ 1 then "s" else "") ++ " "
      ++ toString minutes ++ " minute" ++ (if minutes ≠ 1 then "s" else "")
  else
    toString minutes ++ " minute" ++ (if minutes ≠ 1 then "s" else "")

/-- The `sleep_dt` local of `get_time_until_sleep` after the
roll-forward: if the naive instant is already past `now`, reinterpret
`sleep_start` as occurring on the following day. -/
def rolledSleepDT (scheduleDate : ℤ) (sleepTime : Time) (now : ℚ) : ℚ :=
  if combineT scheduleDate sleepTime < now then
    combineT (scheduleDate + 1) sleepTime
  else
    combineT scheduleDate sleepTime

/-- `SleepOptimizer.get_time_until_sleep`, with the schedule's date and
parsed `sleep_start` supplied, and the impure `datetime.now()` passed
explicitly as `now` (minutes, possibly fractional). -/
def getTimeUntilSleep (scheduleDate : ℤ) (sleepTime : Time) (now : ℚ) :
    Option String :=
  if (rolledSleepDT scheduleDate sleepTime now - now) * 60 < 0 then none
  else
    some (formatHM
      ⌊(rolledSleepDT scheduleDate sleepTime now - now) * 60 / 3600⌋
      ⌊((rolledSleepDT scheduleDate sleepTime now - now) * 60 -
          3600 * ⌊(rolledSleepDT scheduleDate sleepTime now - now) * 60 / 3600⌋)
        / 60⌋)

theorem pyRound_le_add_half (x : ℚ) : (pyRound x : ℚ) ≤ x + 1/2 := by
  have h1 : (⌊x⌋ : ℚ) ≤ x := Int.floor_le x
  unfold pyRound
  split_ifs with a b c <;> push_cast <;> linarith

theorem round2_le (x : ℚ) : round2 x ≤ x + 1/200 := by
  have h := pyRound_le_add_half (x * 100)
  unfold round2
  linarith

theorem mkSchedule_sleep_start (p : PrayerTimes) (d : ℤ) (r : CalcResult) :
    (mkSchedule p d r).sleep_start = timeOfDay r.sleep_start_dt := rfl

theorem mkSchedule_sleep_end (p : PrayerTimes) (d : ℤ) (r : CalcResult) :
    (mkSchedule p d r).sleep_end = timeOfDay r.wake_dt := rfl

theorem mkSchedule_duration (p : PrayerTimes) (d : ℤ) (r : CalcResult) :
    (mkSchedule p d r).duration_hours = r.duration_hours := rfl

theorem calculateOptimalSchedule_eq (o : SleepOptimizer) (p : PrayerTimes)
    (d : ℤ) (ti tf : Time)
    (hi : parseTime p.isha = some ti) (hf : parseTime p.fajr = some tf) :
    calculateOptimalSchedule o p d =
      some (mkSchedule p d (calcCore o d ti tf)) := by
  unfold calculateOptimalSchedule
  rw [hi, hf]
  rfl

theorem adjustBounds_duration_mem (o : SleepOptimizer) (start wake : ℚ)
    (note : Note) (hmm : o.min_duration ≤ o.max_duration) :
    o.min_duration ≤ (adjustBounds o start wake note).duration_hours ∧
      (adjustBounds o start wake note).duration_hours ≤ o.max_duration := by
  unfold adjustBounds
  split_ifs with h1 h2
  · exact ⟨le_rfl, hmm⟩
  · exact ⟨hmm, le_rfl⟩
  · exact ⟨not_lt.mp h1, not_lt.mp h2⟩

theorem evalScenarioC :
    calculateOptimalSchedule defaultOptimizer ⟨"20:00", "04:30"⟩ 0 =
      some ⟨0, 1230, 240, 15/2, "20:00", "04:30", Note.cappedMax (15/2)⟩ := by
  rw [calculateOptimalSchedule_eq defaultOptimizer ⟨"20:00", "04:30"⟩ 0
    ⟨20, 0⟩ ⟨4, 30⟩ (by decide) (by decide)]
  norm_num [mkSchedule, calcCore, adjustBounds, rawDuration, round2, pyRound,
    branchWake, availableHours, sleepStartDT, fajrDT, optimalWakeDT, combineT,
    timeOfDay, defaultOptimizer]

theorem evalScenarioB :
    calculateOptimalSchedule defaultOptimizer ⟨"23:30", "05:00"⟩ 0 =
      some ⟨0, 1380, 300, 6, "23:30", "05:00", Note.adjustedMin 6⟩ := by
  rw [calculateOptimalSchedule_eq defaultOptimizer ⟨"23:30", "05:00"⟩ 0
    ⟨23, 30⟩ ⟨5, 0⟩ (by decide) (by decide)]
  norm_num [mkSchedule, calcCore, adjustBounds, rawDuration, round2, pyRound,
    branchWake, availableHours, sleepStartDT, fajrDT, optimalWakeDT, combineT,
    timeOfDay, defaultOptimizer]

theorem evalPivotShort :
    calculateOptimalSchedule defaultOptimizer ⟨"21:00", "05:10"⟩ 0 =
      some ⟨0, 1290, 240, 13/2, "21:00", "05:10", Note.pivotWake 4⟩ := by
  rw [calculateOptimalSchedule_eq defaultOptimizer ⟨"21:00", "05:10"⟩ 0
    ⟨21, 0⟩ ⟨5, 10⟩ (by decide) (by decide)]
  norm_num [mkSchedule, calcCore, adjustBounds, rawDuration, round2, pyRound,
    branchWake, availableHours, sleepStartDT, fajrDT, optimalWakeDT, combineT,
    timeOfDay, defaultOptimizer]

theorem evalMidnightIsha :
    calculateOptimalSchedule defaultOptimizer ⟨"00:00", "04:00"⟩ 0 =
      some ⟨0, 30, 480, 15/2, "00:00", "04:00", Note.cappedMax (15/2)⟩ := by
  rw [calculateOptimalSchedule_eq defaultOptimizer ⟨"00:00", "04:00"⟩ 0
    ⟨0, 0⟩ ⟨4, 0⟩ (by decide) (by decide)]
  norm_num [mkSchedule, calcCore, adjustBounds, rawDuration, round2, pyRound,
    branchWake, availableHours, sleepStartDT, fajrDT, optimalWakeDT, combineT,
    timeOfDay, defaultOptimizer]

/-- C1: for every parseable input and every coherent policy
(`min_duration_hours ≤ max_duration_hours`), the schedule returned by
`calculate_optimal_schedule` satisfies
`min_duration_hours ≤ duration_hours ≤ max_duration_hours` (with the
reference policy, `6.0 ≤ duration_hours ≤ 7.5`): the unconditional
bounds-adjustment pass after the branch forces any violated bound. -/
theorem schedule_duration_within_bounds (o : SleepOptimizer)
    (p : PrayerTimes) (d : ℤ) (sched : SleepSchedule)
    (hmm : o.min_duration ≤ o.max_duration)
    (h : calculateOptimalSchedule o p d = some sched) :
    o.min_duration ≤ sched.duration_hours ∧
      sched.duration_hours ≤ o.max_duration := by
  rcases hi : parseTime p.isha with _ | ti
  · rw [calculateOptimalSchedule, hi] at h
    simp at h
  rcases hf : parseTime p.fajr with _ | tf
  · rw [calculateOptimalSchedule, hi, hf] at h
    simp at h
  rw [calculateOptimalSchedule_eq o p d ti tf hi hf] at h
  injection h with h2
  rw [← h2, mkSchedule_duration]
  unfold calcCore
  exact adjustBounds_duration_mem o _ _ _ hmm

/-- Witness for C1 at the reference policy, Isha `20:00`, Fajr `04:30`,
day 0: the returned duration (7.5 hours) lies within the bounds 6.0-7.5. -/
theorem schedule_duration_within_bounds_witness :
    defaultOptimizer.min_duration ≤
        (SleepSchedule.mk 0 1230 240 (15/2) "20:00" "04:30"
          (Note.cappedMax (15/2))).duration_hours ∧
      (SleepSchedule.mk 0 1230 240 (15/2) "20:00" "04:30"
          (Note.cappedMax (15/2))).duration_hours ≤
        defaultOptimizer.max_duration :=
  schedule_duration_within_bounds defaultOptimizer ⟨"20:00", "04:30"⟩ 0 _
    (by norm_num [defaultOptimizer]) evalScenarioC

/-- C2 counterexample: with the reference policy, Isha `21:00`,
Fajr `05:10`, the available window is 23/3 h (about 7.67), strictly
below `max_duration_hours + 0.5 = 8.0`, yet the pivot-wake branch fires
(wake at the 4 AM pivot, sleep_end `04:00`, pivot note): the source
compares against the literal `7.5`, not against `max + 0.5`. -/
theorem pivot_threshold_counterexample :
    calculateOptimalSchedule defaultOptimizer ⟨"21:00", "05:10"⟩ 0 =
      some ⟨0, 1290, 240, 13/2, "21:00", "05:10", Note.pivotWake 4⟩ ∧
    branchWake defaultOptimizer 0 ⟨21, 0⟩ ⟨5, 10⟩ =
      (optimalWakeDT defaultOptimizer 0, Note.pivotWake 4) ∧
    ¬ availableHours defaultOptimizer 0 ⟨21, 0⟩ ⟨5, 10⟩ ≥
        defaultOptimizer.max_duration + 1/2 := by
  refine ⟨evalPivotShort, ?_, ?_⟩
  · norm_num [branchWake, availableHours, sleepStartDT, fajrDT, optimalWakeDT,
      combineT, defaultOptimizer]
  · norm_num [availableHours, sleepStartDT, fajrDT, combineT, defaultOptimizer]

/-- C2 amended: the pivot-wake branch is taken exactly when
`available_hours ≥ 7.5` (the hard-coded literal of the source — equal to
the reference `max_duration_hours`, not `max_duration_hours + 0.5`) and
the pivot hour is strictly below the Fajr hour; in every other case the
wake time is `latest_wake = fajr_instant − fajr_buffer_minutes`. -/
theorem pivot_branch_characterization (o : SleepOptimizer) (d : ℤ)
    (isha fajr : Time) :
    (availableHours o d isha fajr ≥ 15/2 ∧ o.optimal_wake_hour < fajr.hour →
      branchWake o d isha fajr =
        (optimalWakeDT o d, Note.pivotWake o.optimal_wake_hour)) ∧
    (¬ (availableHours o d isha fajr ≥ 15/2 ∧
          o.optimal_wake_hour < fajr.hour) →
      (branchWake o d isha fajr).1 = fajrDT d fajr - o.fajr_buffer ∧
      ∀ hr : ℤ, (branchWake o d isha fajr).2 ≠ Note.pivotWake hr) := by
  unfold branchWake
  constructor
  · rintro ⟨h1, h2⟩
    rw [if_pos h1, if_pos h2]
  · intro hn
    by_cases h1 : availableHours o d isha fajr ≥ 15/2
    · have h2 : ¬ fajr.hour > o.optimal_wake_hour := fun hc => hn ⟨h1, hc⟩
      rw [if_pos h1, if_neg h2]
      exact ⟨rfl, fun hr hne => Note.noConfusion hne⟩
    · rw [if_neg h1]
      split_ifs
      · exact ⟨rfl, fun hr hne => Note.noConfusion hne⟩
      · exact ⟨rfl, fun hr hne => Note.noConfusion hne⟩

/-- Witness for the amended C2: Isha `21:00`, Fajr `05:10` satisfies
both conditions (available 23/3 ≥ 7.5, pivot hour 4 < Fajr hour 5), and
the branch indeed wakes at the pivot instant with the pivot note. -/
theorem pivot_branch_characterization_witness :
    branchWake defaultOptimizer 0 ⟨21, 0⟩ ⟨5, 10⟩ =
      (optimalWakeDT defaultOptimizer 0,
        Note.pivotWake defaultOptimizer.optimal_wake_hour) :=
  (pivot_branch_characterization defaultOptimizer 0 ⟨21, 0⟩ ⟨5, 10⟩).1
    ⟨by norm_num [availableHours, sleepStartDT, fajrDT, combineT,
        defaultOptimizer],
      by norm_num [defaultOptimizer]⟩

/-- C3 counterexample: in Scenario C (Isha `20:00`, Fajr `04:30`,
reference policy) the returned `sleep_end` is `04:00` (240 minutes past
midnight), not `03:30` (210 minutes) as the claim states: the cap moves
the wake time to `sleep_start + 7.5 h = 20:30 + 7:30 = 04:00`. -/
theorem scenario_c_sleep_end_counterexample :
    (calculateOptimalSchedule defaultOptimizer ⟨"20:00", "04:30"⟩ 0).map
        SleepSchedule.sleep_end = some 240 ∧ (240 : ℚ) ≠ 210 := by
  rw [evalScenarioC]
  exact ⟨rfl, by norm_num⟩

/-- C3 amended: Scenario C (Isha `20:00`, Fajr `04:30`, reference
policy) does not wake at the pivot (hour 4 is not strictly before Fajr
hour 4), initially wakes at Fajr `04:30` giving a raw duration of
8.0 hours, and the max cap yields a final duration of exactly
7.5 hours with `sleep_end = 04:00` (not `03:30`). -/
theorem scenario_c_schedule :
    calculateOptimalSchedule defaultOptimizer ⟨"20:00", "04:30"⟩ 0 =
      some ⟨0, 1230, 240, 15/2, "20:00", "04:30", Note.cappedMax (15/2)⟩ ∧
    branchWake defaultOptimizer 0 ⟨20, 0⟩ ⟨4, 30⟩ =
      (fajrDT 0 ⟨4, 30⟩ - defaultOptimizer.fajr_buffer, Note.wakeAtFajr) ∧
    rawDuration (sleepStartDT defaultOptimizer 0 ⟨20, 0⟩)
      (fajrDT 0 ⟨4, 30⟩ - defaultOptimizer.fajr_buffer) = 8 := by
  refine ⟨evalScenarioC, ?_, ?_⟩
  · norm_num [branchWake, availableHours, sleepStartDT, fajrDT, optimalWakeDT,
      combineT, defaultOptimizer]
  · norm_num [rawDuration, round2, pyRound, sleepStartDT, fajrDT, combineT,
      defaultOptimizer]

/-- C4: Scenario B (Isha `23:30`, Fajr `05:00`, reference policy): the
available window is 5.0 h, below the 6.0 h minimum, so the degenerate
branch fires (wake at Fajr `05:00` with the warning note), and the
minimum-bound correction pulls `sleep_start` back to `23:00` (1380
minutes), producing a final duration of exactly 6.0 hours with the
adjustment flagged in the notes. -/
theorem scenario_b_schedule :
    calculateOptimalSchedule defaultOptimizer ⟨"23:30", "05:00"⟩ 0 =
      some ⟨0, 1380, 300, 6, "23:30", "05:00", Note.adjustedMin 6⟩ ∧
    branchWake defaultOptimizer 0 ⟨23, 30⟩ ⟨5, 0⟩ =
      (fajrDT 0 ⟨5, 0⟩ - defaultOptimizer.fajr_buffer,
        Note.belowMinWarning) ∧
    availableHours defaultOptimizer 0 ⟨23, 30⟩ ⟨5, 0⟩ <
      defaultOptimizer.min_duration := by
  refine ⟨evalScenarioB, ?_, ?_⟩ <;>
    norm_num [branchWake, availableHours, sleepStartDT, fajrDT, optimalWakeDT,
      combineT, defaultOptimizer]

theorem calcResult_mk_start (a b c : ℚ) (n : Note) :
    (CalcResult.mk a b c n).sleep_start_dt = a := rfl

theorem calcResult_mk_wake (a b c : ℚ) (n : Note) :
    (CalcResult.mk a b c n).wake_dt = b := rfl

theorem calcResult_mk_duration (a b c : ℚ) (n : Note) :
    (CalcResult.mk a b c n).duration_hours = c := rfl

/-- C5: the two bounds corrections each move exactly one endpoint: when
the rounded raw duration is below the minimum, `sleep_start` moves so
that `wake − start` is exactly `min_duration_hours` while the wake time
of the branch is kept; when it exceeds the maximum, the wake time moves
so that `wake − start` is exactly `max_duration_hours` while
`sleep_start` is kept; for a coherent policy the two conditions are
mutually exclusive, so at most one correction applies per call. -/
theorem corrections_move_one_endpoint (o : SleepOptimizer) (d : ℤ)
    (isha fajr : Time) :
    (rawDuration (sleepStartDT o d isha) (branchWake o d isha fajr).1 <
        o.min_duration →
      (calcCore o d isha fajr).wake_dt = (branchWake o d isha fajr).1 ∧
      (calcCore o d isha fajr).wake_dt -
          (calcCore o d isha fajr).sleep_start_dt = 60 * o.min_duration ∧
      (calcCore o d isha fajr).duration_hours = o.min_duration) ∧
    (¬ rawDuration (sleepStartDT o d isha) (branchWake o d isha fajr).1 <
        o.min_duration →
      rawDuration (sleepStartDT o d isha) (branchWake o d isha fajr).1 >
        o.max_duration →
      (calcCore o d isha fajr).sleep_start_dt = sleepStartDT o d isha ∧
      (calcCore o d isha fajr).wake_dt -
          (calcCore o d isha fajr).sleep_start_dt = 60 * o.max_duration ∧
      (calcCore o d isha fajr).duration_hours = o.max_duration) ∧
    (o.min_duration ≤ o.max_duration →
      ¬ (rawDuration (sleepStartDT o d isha) (branchWake o d isha fajr).1 <
            o.min_duration ∧
          rawDuration (sleepStartDT o d isha) (branchWake o d isha fajr).1 >
            o.max_duration)) := by
  refine ⟨fun h1 => ?_, fun h1 h2 => ?_, fun hmm hc => ?_⟩
  · unfold calcCore adjustBounds
    rw [if_pos h1, calcResult_mk_wake, calcResult_mk_start,
      calcResult_mk_duration]
    exact ⟨rfl, by ring, rfl⟩
  · unfold calcCore adjustBounds
    rw [if_neg h1, if_pos h2, calcResult_mk_wake, calcResult_mk_start,
      calcResult_mk_duration]
    exact ⟨rfl, by ring, rfl⟩
  · obtain ⟨ha, hb⟩ := hc
    linarith

/-- Witness for C5 at Scenario B (Isha `23:30`, Fajr `05:00`): the raw
duration 5.0 h is below the minimum, the wake time is kept and the
start moves to make the duration exactly 6.0 hours. -/
theorem corrections_move_one_endpoint_witness :
    (calcCore defaultOptimizer 0 ⟨23, 30⟩ ⟨5, 0⟩).wake_dt =
        (branchWake defaultOptimizer 0 ⟨23, 30⟩ ⟨5, 0⟩).1 ∧
      (calcCore defaultOptimizer 0 ⟨23, 30⟩ ⟨5, 0⟩).wake_dt -
          (calcCore defaultOptimizer 0 ⟨23, 30⟩ ⟨5, 0⟩).sleep_start_dt =
        60 * defaultOptimizer.min_duration ∧
      (calcCore defaultOptimizer 0 ⟨23, 30⟩ ⟨5, 0⟩).duration_hours =
        defaultOptimizer.min_duration :=
  (corrections_move_one_endpoint defaultOptimizer 0 ⟨23, 30⟩ ⟨5, 0⟩).1
    (by norm_num [rawDuration, round2, pyRound, branchWake, availableHours,
      sleepStartDT, fajrDT, optimalWakeDT, combineT, defaultOptimizer])

theorem calcCore_start_of_no_min_correction (o : SleepOptimizer) (d : ℤ)
    (isha fajr : Time)
    (hno : ¬ rawDuration (sleepStartDT o d isha)
      (branchWake o d isha fajr).1 < o.min_duration) :
    (calcCore o d isha fajr).sleep_start_dt = sleepStartDT o d isha := by
  unfold calcCore adjustBounds
  rw [if_neg hno]
  split_ifs
  · rw [calcResult_mk_start]
  · rw [calcResult_mk_start]

/-- C7: whenever the minimum-bound correction does not fire, the
returned `sleep_start` is the Isha time plus `isha_buffer_minutes`,
projected to a wall-clock time of day. -/
theorem sleep_start_is_isha_plus_buffer (o : SleepOptimizer)
    (p : PrayerTimes) (d : ℤ) (ti tf : Time) (sched : SleepSchedule)
    (hi : parseTime p.isha = some ti) (hf : parseTime p.fajr = some tf)
    (hno : ¬ rawDuration (sleepStartDT o d ti) (branchWake o d ti tf).1 <
      o.min_duration)
    (h : calculateOptimalSchedule o p d = some sched) :
    sched.sleep_start = timeOfDay (combineT d ti + o.isha_buffer) := by
  rw [calculateOptimalSchedule_eq o p d ti tf hi hf] at h
  injection h with h2
  rw [← h2, mkSchedule_sleep_start,
    calcCore_start_of_no_min_correction o d ti tf hno, sleepStartDT]

/-- Witness for C7 at Isha `21:00`, Fajr `05:10` (no correction fires,
final duration 6.5 h): the returned `sleep_start` is `21:30`
(1290 minutes), which is Isha plus the 30-minute buffer. -/
theorem sleep_start_is_isha_plus_buffer_witness :
    (SleepSchedule.mk 0 1290 240 (13/2) "21:00" "05:10"
        (Note.pivotWake 4)).sleep_start =
      timeOfDay (combineT 0 ⟨21, 0⟩ + defaultOptimizer.isha_buffer) :=
  sleep_start_is_isha_plus_buffer defaultOptimizer ⟨"21:00", "05:10"⟩ 0
    ⟨21, 0⟩ ⟨5, 10⟩ _ (by decide) (by decide)
    (by norm_num [rawDuration, round2, pyRound, branchWake, availableHours,
      sleepStartDT, fajrDT, optimalWakeDT, combineT, defaultOptimizer])
    evalPivotShort

theorem prod_fst_pair (a : ℚ) (b : Note) : ((a, b) : ℚ × Note).1 = a := rfl

theorem prod_snd_pair (a : ℚ) (b : Note) : ((a, b) : ℚ × Note).2 = b := rfl

theorem branchWake_not_pivot_fst (o : SleepOptimizer) (d : ℤ)
    (isha fajr : Time)
    (hp : ∀ hr : ℤ, (branchWake o d isha fajr).2 ≠ Note.pivotWake hr) :
    (branchWake o d isha fajr).1 = fajrDT d fajr - o.fajr_buffer := by
  unfold branchWake at hp ⊢
  split_ifs at hp ⊢ with h1 h2 h3
  · rw [prod_snd_pair] at hp
    exact absurd rfl (hp o.optimal_wake_hour)
  · rw [prod_fst_pair]
  · rw [prod_fst_pair]
  · rw [prod_fst_pair]

/-- C8 counterexample: with the reference policy, Isha `00:00`,
Fajr `04:00`, day 0, the pivot branch does not fire (Fajr hour 4 is not
above the pivot hour 4), yet the returned `sleep_end` is `08:00`
(480 minutes): projected onto day 1 that is 1920 minutes, after the
latest acceptable wake instant `04:00` on day 1 (1680 minutes) — the
max-duration cap moved the wake instant to `00:30 + 7.5 h = 08:00` on
day 0, and the day-of-projection overshoots. -/
theorem projected_wake_counterexample :
    calculateOptimalSchedule defaultOptimizer ⟨"00:00", "04:00"⟩ 0 =
      some ⟨0, 30, 480, 15/2, "00:00", "04:00", Note.cappedMax (15/2)⟩ ∧
    (∀ hr : ℤ, (branchWake defaultOptimizer 0 ⟨0, 0⟩ ⟨4, 0⟩).2 ≠
      Note.pivotWake hr) ∧
    ¬ ((1440 : ℚ) * (0 + 1) + 480 ≤
        fajrDT 0 ⟨4, 0⟩ - defaultOptimizer.fajr_buffer) := by
  have hb : branchWake defaultOptimizer 0 ⟨0, 0⟩ ⟨4, 0⟩ =
      (fajrDT 0 ⟨4, 0⟩ - defaultOptimizer.fajr_buffer, Note.wakeAtFajr) := by
    norm_num [branchWake, availableHours, sleepStartDT, fajrDT, optimalWakeDT,
      combineT, defaultOptimizer]
  refine ⟨evalMidnightIsha, ?_, ?_⟩
  · intro hr
    rw [hb, prod_snd_pair]
    exact fun h => Note.noConfusion h
  · norm_num [fajrDT, combineT, defaultOptimizer]

/-- C8 amended: with the reference policy, whenever the pivot-wake
branch does not fire, the final wake instant `wake_dt` never lands
after the latest acceptable wake instant
`fajr_instant − fajr_buffer_minutes` (including after the max-duration
cap); the original claim's projection of `sleep_end` onto `date + 1`
can still overshoot when the capped wake instant falls before
`date + 1`, as in the counterexample. -/
theorem wake_not_after_latest_wake (d : ℤ) (isha fajr : Time)
    (hp : ∀ hr : ℤ, (branchWake defaultOptimizer d isha fajr).2 ≠
      Note.pivotWake hr) :
    (calcCore defaultOptimizer d isha fajr).wake_dt ≤
      fajrDT d fajr - defaultOptimizer.fajr_buffer := by
  have hw : (branchWake defaultOptimizer d isha fajr).1 =
      fajrDT d fajr - defaultOptimizer.fajr_buffer :=
    branchWake_not_pivot_fst defaultOptimizer d isha fajr hp
  have hm : fajrDT d fajr - (defaultOptimizer.fajr_buffer : ℚ) -
      sleepStartDT defaultOptimizer d isha =
      ((1410 + 60 * (fajr.hour - isha.hour) +
        (fajr.minute - isha.minute) : ℤ) : ℚ) := by
    simp only [fajrDT, sleepStartDT, combineT, defaultOptimizer]
    push_cast
    ring
  set m : ℤ :=
    1410 + 60 * (fajr.hour - isha.hour) + (fajr.minute - isha.minute)
    with hmdef
  unfold calcCore adjustBounds
  rw [hw]
  split_ifs with h1 h2
  · rw [calcResult_mk_wake]
  · rw [calcResult_mk_wake]
    unfold rawDuration round2 at h2
    have harg : (fajrDT d fajr - (defaultOptimizer.fajr_buffer : ℚ) -
        sleepStartDT defaultOptimizer d isha) * 60 / 3600 * 100 =
        5 * (m : ℚ) / 3 := by
      rw [hm]
      ring
    rw [harg] at h2
    have hub := pyRound_le_add_half (5 * (m : ℚ) / 3)
    have hgt : ((pyRound (5 * (m : ℚ) / 3) : ℚ)) > 750 := by
      have hmax : defaultOptimizer.max_duration = 15/2 := rfl
      rw [hmax] at h2
      linarith
    have hint : (751 : ℤ) ≤ pyRound (5 * (m : ℚ) / 3) := by
      have h5 : (750 : ℤ) < pyRound (5 * (m : ℚ) / 3) := by exact_mod_cast hgt
      omega
    have hm3 : (451 : ℤ) ≤ m := by
      have hq : (751 : ℚ) ≤ 5 * (m : ℚ) / 3 + 1/2 :=
        le_trans (by exact_mod_cast hint) hub
      have hq2 : (4503 : ℚ) ≤ 10 * (m : ℚ) := by linarith
      have hz : (4503 : ℤ) ≤ 10 * m := by exact_mod_cast hq2
      omega
    have hmq : (450 : ℚ) ≤ (m : ℚ) := by
      have : (450 : ℤ) ≤ m := by omega
      exact_mod_cast this
    have hmax : (60 : ℚ) * defaultOptimizer.max_duration = 450 := by
      norm_num [defaultOptimizer]
    rw [hmax]
    linarith [hm]
  · rw [calcResult_mk_wake]

/-- Witness for the amended C8 at Scenario B (Isha `23:30`,
Fajr `05:00`): the pivot branch does not fire and the final wake
instant (1740, i.e. `05:00` on day 1) is at most the latest acceptable
wake instant. -/
theorem wake_not_after_latest_wake_witness :
    (calcCore defaultOptimizer 0 ⟨23, 30⟩ ⟨5, 0⟩).wake_dt ≤
      fajrDT 0 ⟨5, 0⟩ - defaultOptimizer.fajr_buffer :=
  wake_not_after_latest_wake 0 ⟨23, 30⟩ ⟨5, 0⟩ (fun hr => by
    have hb : branchWake defaultOptimizer 0 ⟨23, 30⟩ ⟨5, 0⟩ =
        (fajrDT 0 ⟨5, 0⟩ - defaultOptimizer.fajr_buffer,
          Note.belowMinWarning) := by
      norm_num [branchWake, availableHours, sleepStartDT, fajrDT,
        optimalWakeDT, combineT, defaultOptimizer]
    rw [hb, prod_snd_pair]
    exact fun h => Note.noConfusion h)

/-- C6: `_parse_time` accepts `HH:MM` and `HH:MM:SS` (ignoring the
seconds component) and fails exactly when the text does not split into
at least two components parsed by Python `int`, the hour is outside
0-23, or the minute is outside 0-59; in particular `"25:99"` fails
rather than being clamped or defaulted. -/
theorem parse_time_characterization :
    (∀ s : String, (parseTime s).isSome = true ↔
      ∃ p0 p1 rest, splitColon (stripChars s.data) = p0 :: p1 :: rest ∧
        ∃ hh mm, pyIntChars p0 = some hh ∧ pyIntChars p1 = some mm ∧
          0 ≤ hh ∧ hh ≤ 23 ∧ 0 ≤ mm ∧ mm ≤ 59) ∧
    parseTime "25:99" = none ∧
    parseTime "07:05" = some ⟨7, 5⟩ ∧
    parseTime "07:05:59" = some ⟨7, 5⟩ := by
  refine ⟨fun s => ?_, by decide, by decide, by decide⟩
  unfold parseTime
  cases hsp : splitColon (stripChars s.data) with
  | nil => simp
  | cons p0 tl =>
    cases tl with
    | nil => simp
    | cons p1 rest =>
      show ((pyIntChars p0).bind fun hh =>
          (pyIntChars p1).bind fun mm => mkTime hh mm).isSome = true ↔ _
      constructor
      · intro hs
        rcases hh0 : pyIntChars p0 with _ | hh
        · rw [hh0] at hs
          simp at hs
        rcases hm0 : pyIntChars p1 with _ | mm
        · rw [hh0, hm0] at hs
          simp at hs
        rw [hh0, hm0] at hs
        simp only [Option.some_bind] at hs
        unfold mkTime at hs
        split_ifs at hs with hr
        · obtain ⟨hr1, hr2, hr3, hr4⟩ := hr
          exact ⟨p0, p1, rest, rfl, hh, mm, hh0, hm0, hr1, hr2, hr3, hr4⟩
        · simp at hs
      · rintro ⟨p0x, p1x, restx, heq, hh, mm, hh0, hm0, hr1, hr2, hr3, hr4⟩
        obtain ⟨rfl, rfl, rfl⟩ : p0x = p0 ∧ p1x = p1 ∧ restx = rest := by
          injection heq with e1 e2
          injection e2 with e3 e4
          exact ⟨e1.symm, e3.symm, e4.symm⟩
        rw [hh0, hm0]
        simp only [Option.some_bind]
        unfold mkTime
        rw [if_pos ⟨hr1, hr2, hr3, hr4⟩]
        rfl

/-- C9: the time-until-sleep query returns null exactly when the
instant formed from the schedule date and `sleep_start` is already past
`now` and even its reinterpretation on `date + 1 day` is still past
`now`; otherwise it returns the remaining duration (a `some` result). -/
theorem time_until_sleep_none_iff (d : ℤ) (t : Time) (now : ℚ) :
    (getTimeUntilSleep d t now = none ↔
      combineT d t < now ∧ combineT (d + 1) t < now) ∧
    (¬ (combineT d t < now ∧ combineT (d + 1) t < now) →
      (getTimeUntilSleep d t now).isSome = true) := by
  have hiff : getTimeUntilSleep d t now = none ↔
      combineT d t < now ∧ combineT (d + 1) t < now := by
    unfold getTimeUntilSleep rolledSleepDT
    by_cases h0 : combineT d t < now
    · rw [if_pos h0]
      by_cases h1 : combineT (d + 1) t < now
      · rw [if_pos (by linarith : (combineT (d + 1) t - now) * 60 < 0)]
        simp [h0, h1]
      · rw [if_neg (not_lt.mpr (mul_nonneg
          (sub_nonneg.mpr (not_lt.mp h1)) (by norm_num)))]
        simp [h1]
    · rw [if_neg h0]
      rw [if_neg (not_lt.mpr (mul_nonneg
        (sub_nonneg.mpr (not_lt.mp h0)) (by norm_num)))]
      simp [h0]
  refine ⟨hiff, fun hn => ?_⟩
  rcases ho : getTimeUntilSleep d t now with _ | s
  · exact absurd (hiff.mp ho) hn
  · rfl

/-- Witness for C9 at schedule date 0, `sleep_start = 23:00`,
`now` = 21:30 of day 0 (1290 minutes): the sleep instant is still
ahead, so the query returns a remaining duration. -/
theorem time_until_sleep_none_iff_witness :
    (getTimeUntilSleep 0 ⟨23, 0⟩ 1290).isSome = true :=
  (time_until_sleep_none_iff 0 ⟨23, 0⟩ 1290).2 (by norm_num [combineT])

/-- C10: `calculate_optimal_schedule` is total on its stated domain:
for every target date and every pair of parseable time strings it
returns a schedule (never raises), and in the degenerate case of a
negative dusk-to-dawn window (Isha + buffer after next-day Fajr) the
minimum-bound correction still produces a duration of exactly
`min_duration_hours`. -/
theorem schedule_total_on_parse_domain (d : ℤ) (isha fajr : String)
    (ti tf : Time)
    (hi : parseTime isha = some ti) (hf : parseTime fajr = some tf) :
    ∃ sched,
      calculateOptimalSchedule defaultOptimizer ⟨isha, fajr⟩ d =
        some sched ∧
      (availableHours defaultOptimizer d ti tf < 0 →
        sched.duration_hours = defaultOptimizer.min_duration) := by
  refine ⟨mkSchedule ⟨isha, fajr⟩ d (calcCore defaultOptimizer d ti tf),
    calculateOptimalSchedule_eq defaultOptimizer ⟨isha, fajr⟩ d ti tf hi hf,
    fun hneg => ?_⟩
  rw [mkSchedule_duration]
  have h75 : ¬ availableHours defaultOptimizer d ti tf ≥ 15/2 := by
    intro hc
    linarith
  have hmin : ¬ availableHours defaultOptimizer d ti tf ≥
      defaultOptimizer.min_duration := by
    intro hc
    have h6 : defaultOptimizer.min_duration = 6 := rfl
    rw [h6] at hc
    linarith
  have hb : branchWake defaultOptimizer d ti tf =
      (fajrDT d tf - defaultOptimizer.fajr_buffer,
        Note.belowMinWarning) := by
    unfold branchWake
    rw [if_neg h75, if_neg hmin]
  have hraw : rawDuration (sleepStartDT defaultOptimizer d ti)
      (fajrDT d tf - (defaultOptimizer.fajr_buffer : ℚ)) <
      defaultOptimizer.min_duration := by
    have heq : (fajrDT d tf - (defaultOptimizer.fajr_buffer : ℚ) -
        sleepStartDT defaultOptimizer d ti) * 60 / 3600 =
        availableHours defaultOptimizer d ti tf := by
      unfold availableHours
      simp only [defaultOptimizer]
      push_cast
      ring
    unfold rawDuration round2
    rw [heq]
    have hle := round2_le (availableHours defaultOptimizer d ti tf)
    unfold round2 at hle
    have h6 : defaultOptimizer.min_duration = 6 := rfl
    rw [h6]
    linarith
  unfold calcCore
  rw [hb, prod_fst_pair, prod_snd_pair]
  unfold adjustBounds
  rw [if_pos hraw, calcResult_mk_duration]

/-- Witness for C10 at Isha `23:59`, Fajr `00:00`, day 0: the window is
negative (-29 minutes), and a schedule of exactly 6.0 hours is still
returned. -/
theorem schedule_total_on_parse_domain_witness :
    ∃ sched,
      calculateOptimalSchedule defaultOptimizer ⟨"23:59", "00:00"⟩ 0 =
        some sched ∧
      (availableHours defaultOptimizer 0 ⟨23, 59⟩ ⟨0, 0⟩ < 0 →
        sched.duration_hours = defaultOptimizer.min_duration) :=
  schedule_total_on_parse_domain 0 "23:59" "00:00" ⟨23, 59⟩ ⟨0, 0⟩
    (by decide) (by decide)
